import Mathlib

/-!
Shallow embedding of `src/common_modules/vsts-cli-package-common/vsts/cli/package/common/artifacttool.py`
(class `ArtifactTool`): the structured-log stream interpreter (`_process_stderr`),
the completion checker (`_check_proc_result`), the ETag-keyed binary cache
(`_get_artifacttool`) and the process launcher (`invoke_artifacttool`).

JSON parsing is external to the component under study: each stderr line is
embedded as the decoded, stripped raw text together with the outcome of
`json.loads` (`none` on parse failure, otherwise the parsed object restricted
to the keys the code reads). Python exceptions are embedded as values of
`PyErr`; `logger.*` and `spinner.step` calls are embedded as an effect trace.
-/

set_option autoImplicit false

/-- Embeds `ArtifactTool.PATVAR`. -/
def PATVAR : String := "VSTS_ARTIFACTTOOL_PATVAR"

/-- Embeds the parsed value of the `EventId` key: a JSON object whose `Name`
key may or may not be present (`json_line['EventId']`, `'Name' in json_line['EventId']`). -/
structure EventIdObj where
  name : Option String
deriving DecidableEq

/-- Embeds a JSON object returned by `json.loads`, restricted to the keys
`_process_stderr` reads: `@m`, `@l`, `EventId` (with `Name`), `ProcessedFiles`,
`TotalFiles`, `UploadedBytes`, `TotalBytes`. A `none` field embeds an absent key. -/
structure JsonObj where
  m : Option String
  l : Option String
  eventId : Option EventIdObj
  processedFiles : Option Int
  totalFiles : Option Int
  uploadedBytes : Option Int
  totalBytes : Option Int
deriving DecidableEq

/-- Embeds one line read from `proc.stderr`: `raw` is
`str(line, 'utf-8').strip()` and `json` is the result of `json.loads(text_line)`
(`none` when parsing raised and the `except` branch set `json_line = None`). -/
structure ParsedLine where
  raw : String
  json : Option JsonObj
deriving DecidableEq

/-- Observable side effects of `_process_stderr`: `logger.warning`,
`logger.info`, `logger.debug` and `spinner.step(progress=..., label=...)`. -/
inductive Effect where
  | logWarning (msg : String)
  | logInfo (msg : String)
  | logDebug (msg : String)
  | spinnerStep (percent : Rat) (label : String)
deriving DecidableEq

/-- Python exceptions the embedded code can raise: `CLIError(message)`,
`KeyError(key)` from a missing dict key, `ZeroDivisionError` from
`float(x) / float(0)`, and the bare `Exception` raised by `_check_proc_result`. -/
inductive PyErr where
  | cliError (msg : String)
  | keyError (key : String)
  | zeroDivision
  | procError (msg : String)
deriving DecidableEq

/-- The fixed message logged by the `except` branch of `_process_stderr` when
`json.loads` fails. -/
def parseFailureMsg : String :=
  "Failed to parse JSON log line. Ensure that ArtifactTool structured logging is enabled."

/-- Embeds the severity block of `_process_stderr` (source lines 81-99):
the `try/except` debug message on parse failure, then
`if json_line is not None and '@m' in json_line` with the `@l` default
`"Information"` and the four-way severity dispatch, else `logger.debug(text_line)`.
Returns the emitted effects and the raised exception, if any. -/
def severityEffects (p : ParsedLine) : List Effect × Option PyErr :=
  match p.json with
  | none => ([Effect.logDebug parseFailureMsg, Effect.logDebug p.raw], none)
  | some j =>
    match j.m with
    | none => ([Effect.logDebug p.raw], none)
    | some message =>
      let log_level := j.l.getD "Information"
      if log_level = "Critical" ∨ log_level = "Error" then
        ([], some (PyErr.cliError message))
      else if log_level = "Warning" then
        ([Effect.logWarning message], none)
      else if log_level = "Information" then
        ([Effect.logInfo message], none)
      else
        ([Effect.logDebug message], none)

/-- Embeds `percent = 100 * float(num) / float(den)` followed by
`spinner.step(progress=percent, label=label)`: a zero denominator raises
`ZeroDivisionError` in Python (float division by zero), otherwise the exact
quotient is reported. -/
def progressStep (num den : Int) (label : String) : List Effect × Option PyErr :=
  if den = 0 then ([], some PyErr.zeroDivision)
  else ([Effect.spinnerStep (100 * (num : Rat) / (den : Rat)) label], none)

/-- Embeds the progress block of `_process_stderr` (source lines 102-115):
`if json_line and 'EventId' in json_line and 'Name' in json_line['EventId']`,
then the `ProcessingFiles` and `Uploading` handlers. Missing count keys raise
`KeyError` (`json_line['ProcessedFiles']` etc. are unguarded lookups).
An empty JSON object is falsy in Python, but it also has no `EventId` key,
so embedding the guard as presence of `EventId` with `Name` is faithful. -/
def eventEffects (p : ParsedLine) : List Effect × Option PyErr :=
  match p.json with
  | none => ([], none)
  | some j =>
    match j.eventId with
    | none => ([], none)
    | some ev =>
      match ev.name with
      | none => ([], none)
      | some event_name =>
        if event_name = "ProcessingFiles" then
          match j.processedFiles with
          | none => ([], some (PyErr.keyError "ProcessedFiles"))
          | some pf =>
            match j.totalFiles with
            | none => ([], some (PyErr.keyError "TotalFiles"))
            | some tf =>
              progressStep pf tf
                ("Pre-upload processing: " ++ toString pf ++ "/" ++ toString tf ++ " files")
        else if event_name = "Uploading" then
          match j.uploadedBytes with
          | none => ([], some (PyErr.keyError "UploadedBytes"))
          | some ub =>
            match j.totalBytes with
            | none => ([], some (PyErr.keyError "TotalBytes"))
            | some tb =>
              progressStep ub tb
                ("Uploading: " ++ toString ub ++ "/" ++ toString tb ++ " bytes")
        else ([], none)

/-- Embeds one iteration of the `for line in proc.stderr` loop of
`_process_stderr`: the severity block runs first and a raise there skips the
progress block; otherwise the progress block runs on the same parsed line. -/
def process_stderr_line (p : ParsedLine) : List Effect × Option PyErr :=
  let s := severityEffects p
  match s.2 with
  | some e => (s.1, some e)
  | none => (s.1 ++ (eventEffects p).1, (eventEffects p).2)

/-- Embeds `_process_stderr`: the whole loop over the stderr lines. A raised
exception aborts the loop; the lines after it are never processed. -/
def process_stderr : List ParsedLine → List Effect × Option PyErr
  | [] => ([], none)
  | p :: rest =>
    let r := process_stderr_line p
    match r.2 with
    | some e => (r.1, some e)
    | none =>
      let rr := process_stderr rest
      (r.1 ++ rr.1, rr.2)

/-- Characters removed by Python `str.strip()` with no argument: space, tab,
newline, carriage return, vertical tab, form feed. -/
def isPyWhitespace (c : Char) : Bool :=
  c.toNat = 32 ∨ c.toNat = 9 ∨ c.toNat = 10 ∨ c.toNat = 13 ∨ c.toNat = 11 ∨ c.toNat = 12

/-- Embeds Python `.strip()`: drop leading and trailing whitespace. -/
def pyStrip (s : String) : String :=
  String.mk (((s.data.dropWhile isPyWhitespace).reverse.dropWhile isPyWhitespace).reverse)

/-- Embeds `_check_proc_result` (source lines 117-124): after `proc.wait()`,
a non-zero `returncode` raises
`Exception("ArtifactTool exited with return code %i%s" % (returncode, stderr))`
where `stderr` is the stripped remaining stderr text, prefixed with a newline
only when it is non-empty; a zero return code raises nothing. -/
def check_proc_result (returncode : Int) (remainingStderr : String) : Option PyErr :=
  if returncode ≠ 0 then
    let stderrStripped := pyStrip remainingStderr
    let tail := if stderrStripped ≠ "" then "\n" ++ stderrStripped else stderrStripped
    some (PyErr.procError ("ArtifactTool exited with return code " ++ toString returncode ++ tail))
  else none

/-- Embeds `download_upack` / `publish_upack` after the process starts:
`_process_stderr(proc, spinner)` followed by `_check_proc_result(proc)`.
The result is the first exception raised, or `none` on success. -/
def runOperation (lines : List ParsedLine) (returncode : Int) (remainingStderr : String) :
    Option PyErr :=
  match (process_stderr lines).2 with
  | some e => some e
  | none => check_proc_result returncode remainingStderr

/-- Embeds Python `.strip('"')`: drop every leading and trailing double-quote
character (code point 34). -/
def stripQuotes (cs : List Char) : List Char :=
  ((cs.dropWhile (fun c => c.toNat = 34)).reverse.dropWhile (fun c => c.toNat = 34)).reverse

/-- Embeds Python `.replace("0x", "")`: remove every (left-to-right,
non-overlapping) occurrence of the two-character substring `0x`. -/
def remove0x : List Char → List Char
  | '0' :: 'x' :: rest => remove0x rest
  | c :: rest => c :: remove0x rest
  | [] => []

/-- Embeds the ETag normalization of `_get_artifacttool` (source line 136):
`head_result.headers.get('ETag').strip(""").replace("0x", "").lower()`.
The `replace` runs before `lower`, exactly as in the source. -/
def normalize_etag (s : String) : String :=
  String.mk ((remove0x (stripQuotes s.data)).map Char.toLower)

/-- Embeds `os.path.join` for the two-argument joins the source performs,
with an abstract single separator. -/
def joinPath (a b : String) : String := a ++ "/" ++ b

/-- The hard-coded download URL of `_get_artifacttool` (source line 129). -/
def artifacttoolDefaultUrl : String :=
  "https://zachtest1.blob.core.windows.net/test/artifacttool-win10-x64-Release.zip"

/-- The cache directory `_get_artifacttool` computes for a given temp root and
raw ETag header value: `os.path.join(tempdir, "ArtifactTool", etag)` with the
ETag normalized (source lines 138-140). -/
def toolDirFor (tempDir etagHeader : String) : String :=
  joinPath (joinPath tempDir "ArtifactTool") (normalize_etag etagHeader)

/-- Result of provisioning: the returned binary path and whether the payload
GET (and extraction) was performed. -/
structure ProvisionResult where
  path : String
  didGet : Bool
deriving DecidableEq

/-- Embeds `_get_artifacttool` (source lines 127-148). The two network calls
are external collaborators: `etagOf url` stands for the `ETag` header returned
by `requests.head(url)`, and `didGet` records whether `requests.get` ran, which
the source does exactly when `not os.path.exists(tool_dir)`. The returned path
is the fixed sub-path `artifacttool-win10-x64-Release/ArtifactTool.exe` inside
the cache directory, in both branches. -/
def get_artifacttool (overrideUrl : Option String) (etagOf : String → String)
    (tempDir : String) (pathExists : String → Bool) : ProvisionResult :=
  let url := overrideUrl.getD artifacttoolDefaultUrl
  let tool_dir := toolDirFor tempDir (etagOf url)
  { path := joinPath (joinPath tool_dir "artifacttool-win10-x64-Release") "ArtifactTool.exe",
    didGet := !(pathExists tool_dir) }

/-- Embeds the `subprocess.Popen` call of `invoke_artifacttool` (source lines
69-74): the argument vector, the `shell` flag and the environment passed to the
child. -/
structure PopenCall where
  argv : List String
  shell : Bool
  env : String → Option String

/-- Embeds the launch part of `invoke_artifacttool` (source lines 60-75), with
the binary path already resolved and `creds.password` given: it builds
`new_env = os.environ.copy()` then sets `new_env[PATVAR] = creds.password`, and
calls `Popen([binary] + args, shell=False, env=new_env)`. The second component
is the parent environment after the call: the copy isolates the mutation, so it
is returned unchanged. -/
def invoke_artifacttool (environ : String → Option String) (password : String)
    (binaryPath : String) (args : List String) : PopenCall × (String → Option String) :=
  let new_env := fun k => if k = PATVAR then some password else environ k
  ({ argv := binaryPath :: args, shell := false, env := new_env }, environ)

/-- Splitting the stderr loop at any point: the lines after a raise are never
processed, otherwise the traces concatenate and the tail decides the outcome. -/
theorem process_stderr_append (xs ys : List ParsedLine) :
    process_stderr (xs ++ ys) =
      match (process_stderr xs).2 with
      | some e => ((process_stderr xs).1, some e)
      | none => ((process_stderr xs).1 ++ (process_stderr ys).1, (process_stderr ys).2) := by
  induction xs with
  | nil => simp [process_stderr]
  | cons p rest ih =>
    simp only [List.cons_append, process_stderr]
    cases h : (process_stderr_line p).2 with
    | none =>
      cases h2 : (process_stderr rest).2 with
      | none => simp [h, ih, h2, List.append_assoc]
      | some e => simp [h, ih, h2]
    | some e => simp [h]

/-- C1: a successfully parsed line carrying a message field whose severity
level is Critical or Error makes the whole operation fail with a `CLIError`
holding exactly that message, whatever lines follow and whatever the final
exit code is. -/
theorem critical_or_error_aborts_with_message
    (front rest : List ParsedLine) (p : ParsedLine) (j : JsonObj) (message : String)
    (rc : Int) (s : String)
    (hfront : (process_stderr front).2 = none)
    (hp : p.json = some j) (hm : j.m = some message)
    (hl : j.l = some "Critical" ∨ j.l = some "Error") :
    runOperation (front ++ p :: rest) rc s = some (PyErr.cliError message) := by
  have hline : process_stderr_line p = ([], some (PyErr.cliError message)) := by
    rcases hl with hl | hl <;> simp [process_stderr_line, severityEffects, hp, hm, hl]
  have htail : (process_stderr (p :: rest)).2 = some (PyErr.cliError message) := by
    simp [process_stderr, hline]
  have hstream : (process_stderr (front ++ p :: rest)).2 = some (PyErr.cliError message) := by
    rw [process_stderr_append, hfront]
    simpa using htail
  simp [runOperation, hstream]

/-- Witness for C1 at a concrete Error record. -/
theorem critical_or_error_aborts_with_message_witness :
    runOperation [⟨"x", some ⟨some "boom", some "Error", none, none, none, none, none⟩⟩] 0 ""
      = some (PyErr.cliError "boom") :=
  critical_or_error_aborts_with_message [] []
    ⟨"x", some ⟨some "boom", some "Error", none, none, none, none, none⟩⟩
    ⟨some "boom", some "Error", none, none, none, none, none⟩ "boom" 0 ""
    rfl rfl rfl (Or.inr rfl)

/-- C2: once the stream drains without a raise, the completion check decides
the outcome from the exit code alone: zero means success (however many
Warning or Information records were logged), non-zero raises a Process error
naming the exit code and the stripped remaining stderr text, with a newline
separator only when that text is non-empty. -/
theorem clean_stream_result (lines : List ParsedLine) (rc : Int) (s : String)
    (hclean : (process_stderr lines).2 = none) :
    (rc = 0 → runOperation lines rc s = none) ∧
    (rc ≠ 0 → runOperation lines rc s =
      some (PyErr.procError ("ArtifactTool exited with return code " ++ toString rc ++
        (if pyStrip s = "" then "" else "\n" ++ pyStrip s)))) := by
  constructor
  · intro h0
    simp [runOperation, hclean, check_proc_result, h0]
  · intro hne
    by_cases hs : pyStrip s = "" <;>
      simp [runOperation, hclean, check_proc_result, hne, hs]

/-- Witness for C2: exit code 2 with trailing text "disk full", and exit code
0 after the same clean stream. -/
theorem clean_stream_result_witness :
    runOperation [⟨"junk line", none⟩] 2 "disk full"
      = some (PyErr.procError "ArtifactTool exited with return code 2\ndisk full") ∧
    runOperation [⟨"junk line", none⟩] 0 "disk full" = none :=
  ⟨((clean_stream_result [⟨"junk line", none⟩] 2 "disk full" rfl).2 (by decide)).trans (by decide),
   (clean_stream_result [⟨"junk line", none⟩] 0 "disk full" rfl).1 rfl⟩

/-- Counterexample to C3 as stated: a ProcessingFiles record whose total is
zero raises `ZeroDivisionError` instead of being treated as 0% progress. -/
theorem zero_total_raises_cex :
    process_stderr_line
        ⟨"raw0", some ⟨none, none, some ⟨some "ProcessingFiles"⟩, some 0, some 0, none, none⟩⟩
      = ([Effect.logDebug "raw0"], some PyErr.zeroDivision) := by decide

/-- C3 amended: for a parsed ProcessingFiles or Uploading event with its count
fields, the reported percentage is exactly `100 * numerator / denominator`
when the denominator is non-zero; a zero denominator raises
`ZeroDivisionError` (it is not treated as 0%). -/
theorem progress_percentage_amended
    (p : ParsedLine) (j : JsonObj) (ev : EventIdObj) (num den : Int) (label : String)
    (hp : p.json = some j) (he : j.eventId = some ev)
    (hcase :
      (ev.name = some "ProcessingFiles" ∧ j.processedFiles = some num ∧ j.totalFiles = some den ∧
        label = "Pre-upload processing: " ++ toString num ++ "/" ++ toString den ++ " files") ∨
      (ev.name = some "Uploading" ∧ j.uploadedBytes = some num ∧ j.totalBytes = some den ∧
        label = "Uploading: " ++ toString num ++ "/" ++ toString den ++ " bytes")) :
    (den ≠ 0 →
      eventEffects p = ([Effect.spinnerStep (100 * (num : Rat) / (den : Rat)) label], none)) ∧
    (den = 0 → eventEffects p = ([], some PyErr.zeroDivision)) := by
  rcases hcase with ⟨hn, h1, h2, hlab⟩ | ⟨hn, h1, h2, hlab⟩ <;> subst hlab <;>
    constructor <;> intro hd <;>
    simp [eventEffects, hp, he, hn, h1, h2, progressStep, hd]

/-- Witness for C3 amended at the Uploading record 50/200, whose reported
percentage is 25. -/
theorem progress_percentage_amended_witness :
    eventEffects ⟨"r", some ⟨none, none, some ⟨some "Uploading"⟩, none, none, some 50, some 200⟩⟩
      = ([Effect.spinnerStep (100 * ((50 : Int) : Rat) / ((200 : Int) : Rat))
            "Uploading: 50/200 bytes"], none) ∧
    100 * ((50 : Int) : Rat) / ((200 : Int) : Rat) = 25 :=
  ⟨(progress_percentage_amended
      ⟨"r", some ⟨none, none, some ⟨some "Uploading"⟩, none, none, some 50, some 200⟩⟩
      ⟨none, none, some ⟨some "Uploading"⟩, none, none, some 50, some 200⟩
      ⟨some "Uploading"⟩ 50 200 "Uploading: 50/200 bytes" rfl rfl
      (Or.inr ⟨rfl, rfl, rfl, by decide⟩)).1 (by decide),
   by norm_num⟩

/-- Counterexample to C4 as stated: a parsed line carrying an Uploading event
identifier but no `UploadedBytes` key raises a `KeyError` instead of being
downgraded to diagnostic output. -/
theorem missing_count_fields_raise_cex :
    process_stderr_line ⟨"raw2", some ⟨none, none, some ⟨some "Uploading"⟩, none, none, none, none⟩⟩
      = ([Effect.logDebug "raw2"], some (PyErr.keyError "UploadedBytes")) := by decide

/-- C4 amended: unparseable lines never raise and are logged at debug (after
the fixed parse-failure diagnostic), and a parsed line without a message field
never raises and is logged at debug, provided it does not carry a
ProcessingFiles or Uploading event identifier; those two events read their
count fields unguarded, so missing counts raise `KeyError` and a zero total
raises `ZeroDivisionError`. -/
theorem malformed_line_tolerance_amended (p : ParsedLine) :
    (p.json = none →
      process_stderr_line p = ([Effect.logDebug parseFailureMsg, Effect.logDebug p.raw], none)) ∧
    (∀ j, p.json = some j → j.m = none →
      (j.eventId = none ∨
        ∃ ev, j.eventId = some ev ∧
          (ev.name = none ∨ ∃ n, ev.name = some n ∧ n ≠ "ProcessingFiles" ∧ n ≠ "Uploading")) →
      process_stderr_line p = ([Effect.logDebug p.raw], none)) := by
  constructor
  · intro h
    simp [process_stderr_line, severityEffects, eventEffects, h]
  · rintro j hp hm h
    rcases h with he | ⟨ev, he, hn | ⟨n, hn, hn1, hn2⟩⟩
    · simp [process_stderr_line, severityEffects, eventEffects, hp, hm, he]
    · simp [process_stderr_line, severityEffects, eventEffects, hp, hm, he, hn]
    · simp [process_stderr_line, severityEffects, eventEffects, hp, hm, he, hn, hn1, hn2]

/-- Witness for C4 amended: an unparseable line and a parsed line with no
message and no event identifier. -/
theorem malformed_line_tolerance_amended_witness :
    process_stderr_line ⟨"junk", none⟩
      = ([Effect.logDebug parseFailureMsg, Effect.logDebug "junk"], none) ∧
    process_stderr_line ⟨"empty", some ⟨none, none, none, none, none, none, none⟩⟩
      = ([Effect.logDebug "empty"], none) :=
  ⟨(malformed_line_tolerance_amended ⟨"junk", none⟩).1 rfl,
   (malformed_line_tolerance_amended ⟨"empty", some ⟨none, none, none, none, none, none, none⟩⟩).2
     ⟨none, none, none, none, none, none, none⟩ rfl rfl (Or.inl rfl)⟩

/-- C5: a parsed line with a message field but no severity level field is
handled as Information: the message is surfaced with `logger.info`, not at
debug severity. -/
theorem missing_level_treated_as_information
    (p : ParsedLine) (j : JsonObj) (message : String)
    (hp : p.json = some j) (hm : j.m = some message) (hl : j.l = none) :
    severityEffects p = ([Effect.logInfo message], none) ∧
    process_stderr_line p = (Effect.logInfo message :: (eventEffects p).1, (eventEffects p).2) := by
  have hsev : severityEffects p = ([Effect.logInfo message], none) := by
    simp [severityEffects, hp, hm, hl]
  exact ⟨hsev, by simp [process_stderr_line, hsev]⟩

/-- Witness for C5 at a concrete level-less record. -/
theorem missing_level_treated_as_information_witness :
    severityEffects ⟨"x", some ⟨some "starting", none, none, none, none, none, none⟩⟩
      = ([Effect.logInfo "starting"], none) ∧
    process_stderr_line ⟨"x", some ⟨some "starting", none, none, none, none, none, none⟩⟩
      = (Effect.logInfo "starting"
          :: (eventEffects ⟨"x", some ⟨some "starting", none, none, none, none, none, none⟩⟩).1,
         (eventEffects ⟨"x", some ⟨some "starting", none, none, none, none, none, none⟩⟩).2) :=
  missing_level_treated_as_information
    ⟨"x", some ⟨some "starting", none, none, none, none, none, none⟩⟩
    ⟨some "starting", none, none, none, none, none, none⟩ "starting" rfl rfl rfl

/-- C6: ETag normalization (strip surrounding double quotes, remove `0x`,
lowercase) sends both sample header values, with or without their surrounding
quotes, to the cache key `abcdef`. -/
theorem etag_normalization_example :
    normalize_etag "\"abc0xDEF\"" = "abcdef" ∧ normalize_etag "ABCDEF" = "abcdef" ∧
    normalize_etag "abc0xDEF" = "abcdef" := by decide

/-- C7: when the cache directory computed from the normalized ETag already
exists, provisioning performs no payload GET and returns the known binary
sub-path inside that directory. -/
theorem cache_hit_no_get
    (overrideUrl : Option String) (etagOf : String → String) (tempDir : String)
    (pathExists : String → Bool)
    (h : pathExists (toolDirFor tempDir (etagOf (overrideUrl.getD artifacttoolDefaultUrl))) = true) :
    (get_artifacttool overrideUrl etagOf tempDir pathExists).didGet = false ∧
    (get_artifacttool overrideUrl etagOf tempDir pathExists).path =
      joinPath
        (joinPath (toolDirFor tempDir (etagOf (overrideUrl.getD artifacttoolDefaultUrl)))
          "artifacttool-win10-x64-Release")
        "ArtifactTool.exe" := by
  simp [get_artifacttool, h]

/-- Witness for C7 at a concrete ETag and an existence check that recognizes
exactly the cache directory for that ETag. -/
theorem cache_hit_no_get_witness :
    (get_artifacttool none (fun _ => "\"E\"") "/tmp" (fun d => d == "/tmp/ArtifactTool/e")).didGet
      = false ∧
    (get_artifacttool none (fun _ => "\"E\"") "/tmp" (fun d => d == "/tmp/ArtifactTool/e")).path
      = "/tmp/ArtifactTool/e/artifacttool-win10-x64-Release/ArtifactTool.exe" := by
  have h := cache_hit_no_get none (fun _ => "\"E\"") "/tmp"
    (fun d => d == "/tmp/ArtifactTool/e") (by decide)
  exact ⟨h.1, h.2.trans (by decide)⟩

/-- C8: a line that fails to parse as JSON emits the fixed parse-failure
diagnostic and the raw text at debug severity, produces no progress update and
no raise, and the rest of the stream is processed exactly as it would be on
its own. -/
theorem unparseable_line_continues (raw : String) (rest : List ParsedLine) :
    process_stderr_line ⟨raw, none⟩
      = ([Effect.logDebug parseFailureMsg, Effect.logDebug raw], none) ∧
    process_stderr ((⟨raw, none⟩ : ParsedLine) :: rest)
      = (Effect.logDebug parseFailureMsg :: Effect.logDebug raw :: (process_stderr rest).1,
         (process_stderr rest).2) := by
  constructor
  · simp [process_stderr_line, severityEffects, eventEffects]
  · simp [process_stderr, process_stderr_line, severityEffects, eventEffects]

/-- C9: the launcher passes the arguments as a literal vector with
`shell=False`, the child environment is the parent map plus the injected
secret variable, and the parent environment map is returned unchanged. -/
theorem launch_isolated_env (environ : String → Option String) (password binaryPath : String)
    (args : List String) :
    (invoke_artifacttool environ password binaryPath args).2 = environ ∧
    (invoke_artifacttool environ password binaryPath args).1.shell = false ∧
    (invoke_artifacttool environ password binaryPath args).1.argv = binaryPath :: args ∧
    (invoke_artifacttool environ password binaryPath args).1.env PATVAR = some password ∧
    ∀ k, (invoke_artifacttool environ password binaryPath args).1.env k
        = if k = PATVAR then some password else environ k := by
  refine ⟨rfl, rfl, rfl, ?_, fun k => rfl⟩
  simp [invoke_artifacttool]

/-- Counterexample to C10 as stated: an Uploading record without a message
field and with both count fields present (5 uploaded, total 0) emits no
progress report; it raises `ZeroDivisionError`. -/
theorem progress_independent_cex :
    process_stderr_line ⟨"raw3", some ⟨none, none, some ⟨some "Uploading"⟩, none, none, some 5, some 0⟩⟩
      = ([Effect.logDebug "raw3"], some PyErr.zeroDivision) := by decide

/-- C10 amended: a parsed line without a message field but with a
ProcessingFiles or Uploading event identifier and its count fields still gets
a progress report whenever the total is non-zero: the message handling only
logs the raw text at debug and the progress handling runs independently. -/
theorem progress_independent_of_message_amended
    (p : ParsedLine) (j : JsonObj) (ev : EventIdObj) (num den : Int) (label : String)
    (hp : p.json = some j) (hm : j.m = none) (he : j.eventId = some ev)
    (hden : den ≠ 0)
    (hcase :
      (ev.name = some "ProcessingFiles" ∧ j.processedFiles = some num ∧ j.totalFiles = some den ∧
        label = "Pre-upload processing: " ++ toString num ++ "/" ++ toString den ++ " files") ∨
      (ev.name = some "Uploading" ∧ j.uploadedBytes = some num ∧ j.totalBytes = some den ∧
        label = "Uploading: " ++ toString num ++ "/" ++ toString den ++ " bytes")) :
    process_stderr_line p
      = ([Effect.logDebug p.raw,
          Effect.spinnerStep (100 * (num : Rat) / (den : Rat)) label], none) := by
  rcases hcase with ⟨hn, h1, h2, hlab⟩ | ⟨hn, h1, h2, hlab⟩ <;> subst hlab <;>
    simp [process_stderr_line, severityEffects, eventEffects, progressStep,
      hp, hm, he, hn, h1, h2, hden]

/-- Witness for C10 amended at a ProcessingFiles record 1/4 with no message
field. -/
theorem progress_independent_of_message_amended_witness :
    process_stderr_line
        ⟨"r4", some ⟨none, none, some ⟨some "ProcessingFiles"⟩, some 1, some 4, none, none⟩⟩
      = ([Effect.logDebug "r4",
          Effect.spinnerStep (100 * ((1 : Int) : Rat) / ((4 : Int) : Rat))
            "Pre-upload processing: 1/4 files"], none) :=
  progress_independent_of_message_amended
    ⟨"r4", some ⟨none, none, some ⟨some "ProcessingFiles"⟩, some 1, some 4, none, none⟩⟩
    ⟨none, none, some ⟨some "ProcessingFiles"⟩, some 1, some 4, none, none⟩
    ⟨some "ProcessingFiles"⟩ 1 4 "Pre-upload processing: 1/4 files" rfl rfl rfl (by decide)
    (Or.inl ⟨rfl, rfl, rfl, by decide⟩)
